import Mathlib

/-!
Verification of the NeuroSegmentParcellation core against its specification.

The development shallowly embeds the two source files
`NeuroSegmentParcellationLogic.py` and `NeuroSegmentParcellationVisitor.py`:

* 3D geometry uses exact rational arithmetic (`ℚ`), with VTK helper routines
  (`vtkMath`, `vtkLine.DistanceToLine`) translated in exact arithmetic.
* MRML scene plumbing is embedded as explicit state: a scene is a list of
  nodes, a node carries its class name, name, string attributes and node
  references; host-only concerns (display nodes, rendering, file I/O,
  observers) carry no modelled state and are omitted where they cannot
  affect the modelled state.
* External capabilities (surface point locator, plane nearest-point lookup,
  the boundary-cut solver) are passed in as abstract functions, mirroring the
  specification's collaborator interfaces.
* Python exceptions are modelled with `Except`; the partially mutated state
  at the raise point is carried in the error, matching the non-transactional
  behaviour of `parseParcellationString`.
-/

namespace NeuroSegParc

/-! ## Exact 3D vectors (model of the `[x, y, z]` double triples) -/

/-- A 3D point/vector with exact rational coordinates. -/
structure Vec3 where
  x : ℚ
  y : ℚ
  z : ℚ
deriving DecidableEq, Repr

def Vec3.add (a b : Vec3) : Vec3 := ⟨a.x + b.x, a.y + b.y, a.z + b.z⟩

def Vec3.neg (a : Vec3) : Vec3 := ⟨-a.x, -a.y, -a.z⟩

def Vec3.sub (a b : Vec3) : Vec3 := ⟨a.x - b.x, a.y - b.y, a.z - b.z⟩

/-- Scalar multiplication (model of `vtkMath.MultiplyScalar`). -/
def Vec3.smul (k : ℚ) (a : Vec3) : Vec3 := ⟨k * a.x, k * a.y, k * a.z⟩

/-- Dot product (model of `vtkMath.Dot`). -/
def Vec3.dot (a b : Vec3) : ℚ := a.x * b.x + a.y * b.y + a.z * b.z

instance : Zero Vec3 := ⟨⟨0, 0, 0⟩⟩

instance : Add Vec3 := ⟨Vec3.add⟩

instance : Neg Vec3 := ⟨Vec3.neg⟩

instance : Sub Vec3 := ⟨Vec3.sub⟩

instance : SMul ℚ Vec3 := ⟨Vec3.smul⟩

instance : AddCommGroup Vec3 where
  add_assoc a b c := by
    show Vec3.add (Vec3.add a b) c = Vec3.add a (Vec3.add b c)
    simp [Vec3.add, add_assoc]
  zero_add a := by
    show Vec3.add ⟨0, 0, 0⟩ a = a
    simp [Vec3.add]
  add_zero a := by
    show Vec3.add a ⟨0, 0, 0⟩ = a
    simp [Vec3.add]
  add_comm a b := by
    show Vec3.add a b = Vec3.add b a
    simp [Vec3.add, add_comm]
  neg_add_cancel a := by
    show Vec3.add (Vec3.neg a) a = ⟨0, 0, 0⟩
    simp [Vec3.add, Vec3.neg]
  sub_eq_add_neg a b := by
    show Vec3.sub a b = Vec3.add a (Vec3.neg b)
    simp [Vec3.sub, Vec3.add, Vec3.neg, sub_eq_add_neg]
  nsmul := nsmulRec
  zsmul := zsmulRec

instance : Module ℚ Vec3 where
  one_smul a := by
    show Vec3.smul 1 a = a
    simp [Vec3.smul]
  mul_smul k l a := by
    show Vec3.smul (k * l) a = Vec3.smul k (Vec3.smul l a)
    simp [Vec3.smul, mul_assoc]
  smul_zero k := by
    show Vec3.smul k ⟨0, 0, 0⟩ = ⟨0, 0, 0⟩
    simp [Vec3.smul]
  smul_add k a b := by
    show Vec3.smul k (Vec3.add a b) = Vec3.add (Vec3.smul k a) (Vec3.smul k b)
    simp [Vec3.smul, Vec3.add, mul_add]
  add_smul k l a := by
    show Vec3.smul (k + l) a = Vec3.add (Vec3.smul k a) (Vec3.smul l a)
    simp [Vec3.smul, Vec3.add, add_mul]
  zero_smul a := by
    show Vec3.smul 0 a = ⟨0, 0, 0⟩
    simp [Vec3.smul]

/-! ## Relative-seed roles (constants of `NeuroSegmentParcellationLogic`) -/

/-- The six directional roles (`*_RELATIVE_ROLE` string constants). -/
inductive RelativeRole
  | anterior_of
  | posterior_of
  | superior_of
  | inferior_of
  | medial_of
  | lateral_of
deriving DecidableEq, Repr

/-- `RELATIVE_SEED_ROLES`: the fixed role iteration order. -/
def RELATIVE_SEED_ROLES : List RelativeRole :=
  [.anterior_of, .posterior_of, .superior_of, .inferior_of, .medial_of, .lateral_of]

/-! ## `vtkLine.DistanceToLine` in exact arithmetic -/

/-- Exact-arithmetic model of `vtkLine::DistanceToLine(x, p1, p2, t, closestPoint)`:
the closest point to `x` on the infinite line through `p1` and `p2`
(parametric coordinate unclamped), returned with the squared distance.
The degenerate branch (`p1 = p2`) returns `p1`. -/
def distanceToLine (x p1 p2 : Vec3) : ℚ × Vec3 :=
  let p21 := p2 - p1
  let num := Vec3.dot p21 (x - p1)
  let denom := Vec3.dot p21 p21
  if denom = 0 then
    (Vec3.dot (x - p1) (x - p1), p1)
  else
    let t := num / denom
    let closest := p1 + t • p21
    (Vec3.dot (x - closest) (x - closest), closest)

/-! ## `getClosestPointOnCurveAlongLine` -/

/-- The direction vector chosen for a role in `getClosestPointOnCurveAlongLine`
(lines 1249-1271): the opposite anatomical direction, with the lateral/medial
pair flipped when the seed's x coordinate is negative. -/
def codeDirectionVector (seedPoint : Vec3) (relativeRole : RelativeRole) : Vec3 :=
  let lateralDirection : Vec3 := if seedPoint.x < 0 then ⟨-1, 0, 0⟩ else ⟨1, 0, 0⟩
  let medialDirection : Vec3 := if seedPoint.x < 0 then ⟨1, 0, 0⟩ else ⟨-1, 0, 0⟩
  match relativeRole with
  | .lateral_of => medialDirection
  | .medial_of => lateralDirection
  | .anterior_of => ⟨0, -1, 0⟩
  | .posterior_of => ⟨0, 1, 0⟩
  | .superior_of => ⟨0, 0, -1⟩
  | .inferior_of => ⟨0, 0, 1⟩

/-- `distance < minimumDistance` where `none` stands for the initial
`VTK_DOUBLE_MAX` sentinel (any computed distance is below it). -/
def ltOptB (d : ℚ) : Option ℚ → Bool
  | none => true
  | some m => decide (d < m)

/-- The minimum-tracking loop of `getClosestPointOnCurveAlongLine`
(lines 1280-1289): for each discretized curve point, compute its distance to
the seed line and the corresponding point on the line, keeping the point on
the line with the smallest distance seen so far. -/
def closestPointFold (f : Vec3 → ℚ × Vec3) (curvePoints : List Vec3)
    (acc : Option ℚ × Vec3) : Option ℚ × Vec3 :=
  curvePoints.foldl
    (fun a curvePoint =>
      let r := f curvePoint
      if ltOptB r.1 a.1 then (some r.1, r.2) else a)
    acc

/-- `getClosestPointOnCurveAlongLine(seedPoint, curveNode, relativeRole, closestPoint)`
(lines 1245-1289).  `curvePoints` is the discretized curve
(`curveNode.GetCurve().GetPoints()`); `closestPoint0` is the incoming value of
the out-parameter `closestPoint` (left unchanged when the curve is empty). -/
def getClosestPointOnCurveAlongLine (seedPoint : Vec3) (curvePoints : List Vec3)
    (relativeRole : RelativeRole) (closestPoint0 : Vec3) : Vec3 :=
  let directionVector := codeDirectionVector seedPoint relativeRole
  let seedLineEnd := seedPoint + (10000 : ℚ) • directionVector
  (closestPointFold (fun curvePoint => distanceToLine curvePoint seedPoint seedLineEnd)
    curvePoints (none, closestPoint0)).2

/-! ## Directional correction (`updateRelativeSeedPosition`, lines 1223-1243) -/

/-- Read coordinate `i` (0 = x, 1 = y, 2 = z), model of `point[i]`. -/
def Vec3.coord (v : Vec3) (i : ℤ) : ℚ :=
  if i = 0 then v.x else if i = 1 then v.y else v.z

/-- Write coordinate `i`, model of `point[i] = q`. -/
def Vec3.setCoord (v : Vec3) (i : ℤ) (q : ℚ) : Vec3 :=
  if i = 0 then ⟨q, v.y, v.z⟩ else if i = 1 then ⟨v.x, q, v.z⟩ else ⟨v.x, v.y, q⟩

/-- The per-control-point body of `updateRelativeSeedPosition` after the
closest point has been computed (lines 1223-1243): find the single invalid
axis for the role, if any, and mirror that one coordinate across the
reference point's coordinate (`new = ref - diff`). -/
def correctSeedPoint (seedPoint closestPoint : Vec3) (relativeRole : RelativeRole) : Vec3 :=
  let differenceVector := seedPoint - closestPoint
  let invalidAxis0 : ℤ :=
    if relativeRole = .lateral_of ∧ |seedPoint.x| < |closestPoint.x| then 0
    else if relativeRole = .medial_of ∧ |seedPoint.x| > |closestPoint.x| then 0
    else -1
  let invalidAxis : ℤ :=
    if relativeRole = .anterior_of ∧ differenceVector.y < 0 then 1
    else if relativeRole = .posterior_of ∧ differenceVector.y > 0 then 1
    else if relativeRole = .superior_of ∧ differenceVector.z < 0 then 2
    else if relativeRole = .inferior_of ∧ differenceVector.z > 0 then 2
    else invalidAxis0
  if invalidAxis < 0 then seedPoint
  else seedPoint.setCoord invalidAxis
    (closestPoint.coord invalidAxis - differenceVector.coord invalidAxis)

/-! ## Seed and relative-marker state -/

/-- Geometry of a constraint-target marker as consumed by the solver:
a (closed) curve contributes its discretized curve points; a plane is
accessed only through the host's `GetClosestPointOnPlaneWorld` capability. -/
inductive MarkerGeometry
  | curve (curvePoints : List Vec3)
  | plane (closestPointOnPlaneWorld : Vec3 → Vec3)

/-- A marker referenced by a relative constraint. -/
structure RelativeMarker where
  controlPoints : List Vec3
  geometry : MarkerGeometry

/-- A seed fiducial node: its control points, the
`NeuroSegmentParcellation.ManuallyPlaced` attribute (absent / "FALSE" /
"TRUE"), and its typed `Relative.<role>` node references. -/
structure SeedNode where
  controlPoints : List Vec3
  manuallyPlacedAttribute : Option String
  relativeRefs : RelativeRole → List RelativeMarker

/-- `initializeSeedNode`'s arithmetic (lines 1186-1203) on the control-point
lists of the relative nodes: per-node average of control points, each average
scaled by `1 / numberOfRelativeNodes` and accumulated; `none` when there are
no relative nodes (the function returns without adding a point). -/
def initializeSeedPoint (relativeNodes : List (List Vec3)) : Option Vec3 :=
  let numberOfRelativeNodes : ℕ := relativeNodes.length
  if numberOfRelativeNodes = 0 then none
  else
    let inverseNumberOfRelativeNodes : ℚ := 1 / (numberOfRelativeNodes : ℚ)
    some (relativeNodes.foldl
      (fun seedPoint points =>
        let numberOfPoints : ℕ := points.length
        if numberOfPoints = 0 then seedPoint
        else
          let inverseNumberOfPoints : ℚ := 1 / (numberOfPoints : ℚ)
          let averagePoint :=
            points.foldl (fun acc point => inverseNumberOfPoints • point + acc) 0
          inverseNumberOfRelativeNodes • averagePoint + seedPoint)
      0)

/-- `initializeSeedNode(seedNode)` (lines 1180-1204): gather the relative
nodes over all roles in `RELATIVE_SEED_ROLES` order and add one control point
at the computed position (no point when there are no relative nodes). -/
def initializeSeedNode (seedNode : SeedNode) : SeedNode :=
  let relativeNodes :=
    RELATIVE_SEED_ROLES.foldl (fun acc role => acc ++ seedNode.relativeRefs role) []
  match initializeSeedPoint (relativeNodes.map RelativeMarker.controlPoints) with
  | none => seedNode
  | some p => { seedNode with controlPoints := seedNode.controlPoints ++ [p] }

/-- `updateRelativeSeedPosition(seedNode, relativeNode, relativeRole)`
(lines 1206-1243): skip when the relative node has no control points,
initialize an empty seed, then correct every seed control point against the
closest point on the relative node (ray query for curves, host plane lookup
for planes). -/
def updateRelativeSeedPosition (seedNode : SeedNode) (relativeNode : RelativeMarker)
    (relativeRole : RelativeRole) : SeedNode :=
  if relativeNode.controlPoints.length = 0 then seedNode
  else
    let seedNode :=
      if seedNode.controlPoints.length = 0 then initializeSeedNode seedNode else seedNode
    { seedNode with
      controlPoints := seedNode.controlPoints.map (fun seedPoint =>
        let closestPoint : Vec3 :=
          match relativeNode.geometry with
          | .curve curvePoints =>
            getClosestPointOnCurveAlongLine seedPoint curvePoints relativeRole ⟨0, 0, 0⟩
          | .plane closestPointOnPlaneWorld => closestPointOnPlaneWorld seedPoint
        correctSeedPoint seedPoint closestPoint relativeRole) }

/-- `snapSeedsToSurface(seedNode)` (lines 431-440).  `locator` is the external
point-locator capability (`none` models `origPointLocator.GetDataSet() is None`). -/
def snapSeedsToSurface (locator : Option (Vec3 → Vec3)) (seedNode : SeedNode) : SeedNode :=
  match locator with
  | none => seedNode
  | some nearestPoint =>
    { seedNode with controlPoints := seedNode.controlPoints.map nearestPoint }

/-- `updateRelativeSeedNode(seedNode)` (lines 1154-1178): skipped when the
seed is manually placed, or in the legacy state (no attribute) with existing
control points; otherwise initialize if empty, apply every relative
constraint role by role, and snap to the surface. -/
def updateRelativeSeedNode (locator : Option (Vec3 → Vec3)) (seedNode : SeedNode) : SeedNode :=
  if seedNode.manuallyPlacedAttribute = some "TRUE" then seedNode
  else if seedNode.manuallyPlacedAttribute = none ∧ seedNode.controlPoints.length ≠ 0 then
    seedNode
  else
    let seedNode1 :=
      if seedNode.controlPoints.length = 0 then initializeSeedNode seedNode else seedNode
    let seedNode2 :=
      RELATIVE_SEED_ROLES.foldl
        (fun sn relativeRole =>
          (sn.relativeRefs relativeRole).foldl
            (fun sn relativeNode => updateRelativeSeedPosition sn relativeNode relativeRole)
            sn)
        seedNode1
    snapSeedsToSurface locator seedNode2

/-- `updateRelativeSeedsForMarkup` (lines 423-429): a constraint-target
marker edit re-derives every seed that references the marker. -/
def updateRelativeSeedsForMarkup (locator : Option (Vec3 → Vec3))
    (seedNodes : List SeedNode) : List SeedNode :=
  seedNodes.map (updateRelativeSeedNode locator)

/-- `onSeedRemoved(seedNode)` (lines 416-421): when the last control point is
removed, reset the manually-placed attribute to "FALSE". -/
def onSeedRemoved (seedNode : SeedNode) : SeedNode :=
  if seedNode.controlPoints.length ≠ 0 then seedNode
  else { seedNode with manuallyPlacedAttribute := some "FALSE" }

/-! ## Boundary-cut job execution (`runDynamicModelerTool`, lines 907-933) -/

/-- The output `vtkMRMLModelNode` of a boundary-cut job: it may or may not
hold a polydata mesh (modelled as its point list). -/
structure OutputModelNode where
  polyData : Option (List Vec3)
deriving DecidableEq, Repr

/-- The state of a `vtkMRMLDynamicModelerNode` boundary-cut job as consumed
by `runDynamicModelerTool`: the control points of each
`BoundaryCut.InputBorder` reference (`none` for a missing node), the
`BoundaryCut.OutputModel` reference and the `BoundaryCut.InputSeed` node. -/
structure DynamicModelerToolNode where
  borderInputs : List (Option (List Vec3))
  outputModel : Option OutputModelNode
  seedNode : Option SeedNode

/-- Observable outcome of `runDynamicModelerTool`: whether the external
solver (`dynamicModelerLogic.RunDynamicModelerTool`) was invoked, the prior
output polydata was cleared (`Initialize()`), or nothing was done. -/
inductive ToolRunAction
  | solverInvoked
  | outputCleared
  | skippedNoOutput
deriving DecidableEq, Repr

/-- `toolHasAllInputs` (lines 920-927): every present border input node has
at least one control point (missing nodes are skipped by the `continue`). -/
def toolHasAllInputs (toolNode : DynamicModelerToolNode) : Bool :=
  toolNode.borderInputs.all (fun inputNode =>
    match inputNode with
    | none => true
    | some points => points.length ≠ 0)

/-- `runDynamicModelerTool(toolNode)` (lines 907-933): update the relative
seed, then either invoke the external solver (when all border inputs are
complete; the solver's output is produced externally and is not modelled) or
clear the prior output polydata.  `initializePedigreeIds` only stamps id
arrays onto the orig model's mesh for the external solver and is omitted. -/
def runDynamicModelerTool (locator : Option (Vec3 → Vec3))
    (toolNode : DynamicModelerToolNode) : ToolRunAction × DynamicModelerToolNode :=
  let toolNode :=
    { toolNode with seedNode := toolNode.seedNode.map (updateRelativeSeedNode locator) }
  if toolHasAllInputs toolNode then
    (.solverInvoked, toolNode)
  else
    match toolNode.outputModel with
    | some outputModel =>
      match outputModel.polyData with
      | some _ => (.outputCleared, { toolNode with outputModel := some ⟨some []⟩ })
      | none => (.skippedNoOutput, toolNode)
    | none => (.skippedNoOutput, toolNode)

/-! ## MRML scene model (node store consumed by the query interpreter) -/

/-- MRML class hierarchy restricted to the classes this module touches;
`vtkMRMLScene.GetFirstNode` matches classes via `IsA`, so a closed curve is
found by a curve-class query but not conversely. -/
def classAncestors (className : String) : List String :=
  if className = "vtkMRMLMarkupsClosedCurveNode" then
    ["vtkMRMLMarkupsClosedCurveNode", "vtkMRMLMarkupsCurveNode", "vtkMRMLMarkupsNode",
      "vtkMRMLNode"]
  else if className = "vtkMRMLMarkupsCurveNode" then
    ["vtkMRMLMarkupsCurveNode", "vtkMRMLMarkupsNode", "vtkMRMLNode"]
  else if className = "vtkMRMLMarkupsPlaneNode" then
    ["vtkMRMLMarkupsPlaneNode", "vtkMRMLMarkupsNode", "vtkMRMLNode"]
  else if className = "vtkMRMLMarkupsFiducialNode" then
    ["vtkMRMLMarkupsFiducialNode", "vtkMRMLMarkupsNode", "vtkMRMLNode"]
  else if className = "vtkMRMLModelNode" then
    ["vtkMRMLModelNode", "vtkMRMLNode"]
  else if className = "vtkMRMLDynamicModelerNode" then
    ["vtkMRMLDynamicModelerNode", "vtkMRMLNode"]
  else
    [className, "vtkMRMLNode"]

/-- A scene node as touched by the visitor: identity, class, name, string
attributes and node references (role, referenced node id; references of one
role keep their insertion order and may repeat). -/
structure MRMLNode where
  nodeID : Nat
  className : String
  name : String
  attributes : List (String × String)
  refs : List (String × Nat)
deriving DecidableEq, Repr

/-- `node.IsA(className)`. -/
def MRMLNode.isA (node : MRMLNode) (className : String) : Bool :=
  (classAncestors node.className).contains className

/-- `node.GetAttribute(key)` (absent attribute reads as `none`). -/
def MRMLNode.getAttribute (node : MRMLNode) (key : String) : Option String :=
  (node.attributes.find? (fun kv => kv.1 = key)).map Prod.snd

/-- `node.SetAttribute(key, value)`: replace an existing entry or append. -/
def MRMLNode.setAttribute (node : MRMLNode) (key value : String) : MRMLNode :=
  if (node.attributes.find? (fun kv => kv.1 = key)).isSome then
    { node with attributes :=
        node.attributes.map (fun kv => if kv.1 = key then (key, value) else kv) }
  else
    { node with attributes := node.attributes ++ [(key, value)] }

/-- `node.AddNodeReferenceID(role, id)`: append a reference. -/
def MRMLNode.addNodeReferenceID (node : MRMLNode) (role : String) (id : Nat) : MRMLNode :=
  { node with refs := node.refs ++ [(role, id)] }

/-- `node.RemoveNodeReferenceIDs(role)`: drop every reference of the role. -/
def MRMLNode.removeNodeReferenceIDs (node : MRMLNode) (role : String) : MRMLNode :=
  { node with refs := node.refs.filter (fun r => r.1 ≠ role) }

/-- `node.SetNodeReferenceID(role, id)`: replace the role's references with
the single given reference. -/
def MRMLNode.setNodeReferenceID (node : MRMLNode) (role : String) (id : Nat) : MRMLNode :=
  (node.removeNodeReferenceIDs role).addNodeReferenceID role id

/-- `node.GetNodeReferences(role)` as a list of referenced node ids in
reference order (`GetNthNodeReference` for each index). -/
def MRMLNode.getNodeReferences (node : MRMLNode) (role : String) : List Nat :=
  (node.refs.filter (fun r => r.1 = role)).map Prod.snd

/-- The MRML scene: the node list in scene order plus a fresh-id counter. -/
structure MRMLScene where
  nodes : List MRMLNode
  nextID : Nat
deriving DecidableEq, Repr

/-- `vtkMRMLScene.GetFirstNode(byName, byClass)` with exact name matching and
`IsA` class matching, as called by `slicer.util.getFirstNodeByClassByName`. -/
def MRMLScene.getFirstNode (scene : MRMLScene) (byName byClass : String) : Option MRMLNode :=
  scene.nodes.find? (fun node => node.isA byClass && node.name = byName)

/-- `slicer.util.getNode(pattern)` restricted to exact node names (the
visitor only ever passes plain names); `none` models the raised
`MRMLNodeNotFoundException`. -/
def MRMLScene.getNode (scene : MRMLScene) (pattern : String) : Option MRMLNode :=
  scene.nodes.find? (fun node => node.name = pattern)

/-- Whether any node of the scene, of any class, carries the name
(`GetFirstNodeByName`-style collision check of the unique-name generator). -/
def MRMLScene.isNodeNameUsed (scene : MRMLScene) (name : String) : Bool :=
  scene.nodes.any (fun node => node.name = name)

/-- Search for the first free suffixed name `base_i`, `i` counting up from
the given start.  The fuel is an upper bound on the number of candidates to
try; `scene.nodes.length + 1` candidates always contain a free one. -/
def MRMLScene.generateUniqueNameAux (scene : MRMLScene) (baseName : String) :
    Nat → Nat → String
  | 0, i => baseName ++ "_" ++ toString i
  | fuel + 1, i =>
    let candidate := baseName ++ "_" ++ toString i
    if scene.isNodeNameUsed candidate then
      scene.generateUniqueNameAux baseName fuel (i + 1)
    else candidate

/-- `vtkMRMLScene::GenerateUniqueName(baseName)`: the base name itself when
no node carries it, otherwise `base_1`, `base_2`, … — the first free suffix.
(The scene's cached per-base-name counter is not modelled; it coincides with
the first free suffix whenever nodes are only ever added, as in every run
modelled here.) -/
def MRMLScene.generateUniqueName (scene : MRMLScene) (baseName : String) : String :=
  if scene.isNodeNameUsed baseName then
    scene.generateUniqueNameAux baseName (scene.nodes.length + 1) 1
  else baseName

/-- `slicer.mrmlScene.AddNewNodeByClass(className, nodeBaseName)`: append a
fresh node named by the scene's unique-name generation over the base name
(an occupied name — held by a node of any class — is suffixed to `name_1`,
`name_2`, …) and return its id. -/
def MRMLScene.addNewNodeByClass (scene : MRMLScene) (className nodeBaseName : String) :
    MRMLScene × Nat :=
  let name := scene.generateUniqueName nodeBaseName
  ({ nodes := scene.nodes ++ [⟨scene.nextID, className, name, [], []⟩],
     nextID := scene.nextID + 1 },
   scene.nextID)

/-- Fetch a node by id. -/
def MRMLScene.getNodeByID (scene : MRMLScene) (id : Nat) : Option MRMLNode :=
  scene.nodes.find? (fun node => node.nodeID = id)

/-- Apply an in-place mutation to the node with the given id. -/
def MRMLScene.modifyNode (scene : MRMLScene) (id : Nat) (f : MRMLNode → MRMLNode) :
    MRMLScene :=
  { scene with nodes := scene.nodes.map (fun node => if node.nodeID = id then f node else node) }

/-! ## Node-reference role constants (`NeuroSegmentParcellationLogic`) -/

def BOUNDARY_CUT_INPUT_BORDER_REFERENCE : String := "BoundaryCut.InputBorder"

def BOUNDARY_CUT_OUTPUT_MODEL_REFERENCE : String := "BoundaryCut.OutputModel"

def BOUNDARY_CUT_INPUT_SEED_REFERENCE : String := "BoundaryCut.InputSeed"

def INPUT_MARKUPS_REFERENCE : String := "InputMarkups"

def INPUT_QUERY_REFERENCE : String := "InputQuery"

def OUTPUT_MODEL_REFERENCE : String := "OutputModel"

def TOOL_NODE_REFERENCE : String := "ToolNode"

/-! ## Python AST fragment consumed by `NeuroSegmentParcellationVisitor`

The visitor reuses Python's `ast` module; only the node kinds the visitor
dispatches on are modelled.  `ast.Expr` statements and `ast.Assign` carry
their source line number. -/

inductive PyExpr
  | name (id : String)
  | strConst (s : String)
  | listLit (elts : List PyExpr)
  | binOp (left right : PyExpr)
  | call (func : PyExpr) (args : List PyExpr)
  | unaryOp (operand : PyExpr)

inductive PyStmt
  | assign (targets : List PyExpr) (value : PyExpr) (lineno : Nat)
  | exprStmt (value : PyExpr) (lineno : Nat)

/-- Python exceptions that can escape the visitor and be caught by
`parseParcellationString`. -/
inductive PyError
  | nameError (msg : String)
  | attributeError (msg : String)
  | typeError (msg : String)
  | mrmlNodeNotFoundException (msg : String)
deriving DecidableEq, Repr

/-- Every `logging.error(...)` call inside `NeuroSegmentParcellationVisitor`
raises this: the visitor module never imports `logging`, so evaluating the
name raises before any message (or line number) is formatted. -/
def loggingNameError : PyError := .nameError "name 'logging' is not defined"

/-- The mutable state threaded through one interpretation run: the scene,
the parameter node's reference list, and the visitor's
`distanceWeightingFunction` attribute (unset until the first
`_DistanceWeightingFunction` assignment; reading it unset raises
`AttributeError`). -/
structure VisitorState where
  scene : MRMLScene
  parameterNodeRefs : List (String × Nat)
  distanceWeightingFunction : Option String
deriving DecidableEq, Repr

/-- A fresh logic/visitor state over an empty scene. -/
def initialVisitorState : VisitorState :=
  { scene := { nodes := [], nextID := 0 }, parameterNodeRefs := [],
    distanceWeightingFunction := none }

/-- `parameterNode.AddNodeReferenceID(role, id)`. -/
def VisitorState.addParameterNodeRef (st : VisitorState) (role : String) (id : Nat) :
    VisitorState :=
  { st with parameterNodeRefs := st.parameterNodeRefs ++ [(role, id)] }

/-- Parameter-node references of one role, in order. -/
def VisitorState.parameterNodeReferences (st : VisitorState) (role : String) : List Nat :=
  (st.parameterNodeRefs.filter (fun r => r.1 = role)).map Prod.snd

mutual

/-- `self.visit(value)` on the right-hand side of an assignment: dispatch of
`ast.NodeVisitor` over the handlers the visitor defines.  Returns the node
list produced by `visit_Name` / `visit_BinOp`, or `none` when the dispatched
handler returns `None` (`visit_Call` is `pass`; unhandled node kinds fall to
`generic_visit`, which visits children and returns `None`). -/
def visitExprValue (st : VisitorState) : PyExpr → Except PyError (Option (List Nat))
  | .name id =>
    match st.scene.getNode id with
    | some node => .ok (some [node.nodeID])
    | none =>
      .error (.mrmlNodeNotFoundException
        ("could not find nodes in the scene by name or id '" ++ id ++ "'"))
  | .strConst _ => .ok none
  | .listLit elts => do
    let _ ← visitExprList st elts
    .ok none
  | .binOp left right => do
    let leftNodes ← visitExprValue st left
    let rightNodes ← visitExprValue st right
    match leftNodes, rightNodes with
    | some l, some r => .ok (some (l ++ r))
    | _, _ => .error (.typeError "unsupported operand type(s) for +")
  | .call _ _ => .ok none
  | .unaryOp _ => .error loggingNameError

/-- `generic_visit` over a child list: visit each child for its side
effects/exceptions, discarding results. -/
def visitExprList (st : VisitorState) : List PyExpr → Except PyError Unit
  | [] => .ok ()
  | e :: rest => do
    let _ ← visitExprValue st e
    visitExprList st rest

end

/-- The lookup/create step of `process_InputNodes` for one name
(lines 105-108): find the first scene node of the requested class with the
given name, else create one.  This is the Surface Registry's
`getOrCreate(name, type)` of the specification; note the lookup is keyed by
the requested class as well as the name. -/
def getOrCreateInputNode (scene : MRMLScene) (className name : String) :
    MRMLScene × Nat :=
  match scene.getFirstNode name className with
  | some inputNode => (scene, inputNode.nodeID)
  | none => scene.addNewNodeByClass className name

/-- The per-name loop body of `process_InputNodes` (lines 104-119): look up
or create the node (default display configuration is host-side and carries
no modelled state), install the current distance-weighting function on curve
nodes (reading the unset visitor attribute raises `AttributeError`), and
register the node as an input markup of the run. -/
def processInputNodeName (st : VisitorState) (className name : String) :
    Except (PyError × VisitorState) (VisitorState × Nat) :=
  let (scene, inputNodeID) := getOrCreateInputNode st.scene className name
  let st := { st with scene := scene }
  let isCurve :=
    match st.scene.getNodeByID inputNodeID with
    | some node => node.isA "vtkMRMLMarkupsCurveNode"
    | none => false
  match (if isCurve then st.distanceWeightingFunction.map some else some none :
      Option (Option String)) with
  | none =>
    .error ((.attributeError
      "'NeuroSegmentParcellationVisitor' object has no attribute 'distanceWeightingFunction'"),
      st)
  | some weighting =>
    let st :=
      match weighting with
      | some f =>
        let scene := st.scene.modifyNode inputNodeID
          (fun node => node.setAttribute "DistanceWeightingFunction" f)
        { st with scene := scene }
      | none => st
    .ok (st.addParameterNodeRef INPUT_MARKUPS_REFERENCE inputNodeID, inputNodeID)

/-- `process_InputNodes(node, className)` (lines 90-120): require an
`ast.List` value (anything else hits `logging.error`, raising `NameError`),
take the `.id` of every element (a non-`Name` element raises
`AttributeError` inside the list comprehension, before any node is created),
then process each name in order. -/
def process_InputNodes (st : VisitorState) (node : PyExpr) (className : String) :
    Except (PyError × VisitorState) (VisitorState × List Nat) :=
  match node with
  | .listLit elts => do
    let planeNames ← elts.mapM (fun e =>
      match e with
      | .name id => Except.ok id
      | _ =>
        Except.error (((.attributeError "object has no attribute 'id'") : PyError), st))
    planeNames.foldlM
      (fun (acc : VisitorState × List Nat) name => do
        let (st, inputNodes) := acc
        let (st, inputNodeID) ← processInputNodeName st className name
        pure (st, inputNodes ++ [inputNodeID]))
      (st, ([] : List Nat))
  | _ => .error (loggingNameError, st)

/-- The parcel-declaration branch of `visit_Assign` (lines 62-88): evaluate
the right-hand side, get or create the output model, the seed fiducial
`<name>_SeedPoints` and the boundary-cut tool `<name>_BoundaryCut` (looked up
— as in the source — with class `vtkMRMLModelNode`, so an existing
dynamic-modeler node is never found and a new one is created), wire the tool
references, and register the output and tool on the parameter node.
`SetToolName` and `ContinuousUpdateOff` configure the host's dynamic-modeler
machinery and carry no state the claims touch; display-node creation is
host-side.  When the right-hand side evaluated to `None` (e.g. a call),
iterating it raises `TypeError` after the tool was created but before it is
registered. -/
def visitAssignParcel (st : VisitorState) (targetId : String) (value : PyExpr) :
    Except (PyError × VisitorState) VisitorState :=
  match visitExprValue st value with
  | .error e => .error (e, st)
  | .ok nodes =>
    let (st, outputModelID) :=
      match st.scene.getFirstNode targetId "vtkMRMLModelNode" with
      | some outputModel => (st, outputModel.nodeID)
      | none =>
        let (scene, id) := st.scene.addNewNodeByClass "vtkMRMLModelNode" targetId
        ({ st with scene := scene }, id)
    let st := st.addParameterNodeRef OUTPUT_MODEL_REFERENCE outputModelID
    let (st, inputSeedID) :=
      match st.scene.getFirstNode (targetId ++ "_SeedPoints") "vtkMRMLMarkupsFiducialNode" with
      | some inputSeed => (st, inputSeed.nodeID)
      | none =>
        let (scene, id) :=
          st.scene.addNewNodeByClass "vtkMRMLMarkupsFiducialNode" (targetId ++ "_SeedPoints")
        ({ st with scene := scene }, id)
    let outputModelName :=
      match st.scene.getNodeByID outputModelID with
      | some outputModel => outputModel.name
      | none => ""
    let (st, toolNodeID) :=
      match st.scene.getFirstNode (outputModelName ++ "_BoundaryCut") "vtkMRMLModelNode" with
      | some toolNode => (st, toolNode.nodeID)
      | none =>
        let (scene, id) :=
          st.scene.addNewNodeByClass "vtkMRMLDynamicModelerNode"
            (outputModelName ++ "_BoundaryCut")
        ({ st with scene := scene }, id)
    let sceneA := st.scene.modifyNode toolNodeID
      (fun toolNode =>
        toolNode.setNodeReferenceID BOUNDARY_CUT_OUTPUT_MODEL_REFERENCE outputModelID)
    let st := { st with scene := sceneA }
    let sceneB := st.scene.modifyNode toolNodeID
      (fun toolNode =>
        toolNode.setNodeReferenceID BOUNDARY_CUT_INPUT_SEED_REFERENCE inputSeedID)
    let st := { st with scene := sceneB }
    match nodes with
    | none => .error ((.typeError "'NoneType' object is not iterable"), st)
    | some inputNodeIDs =>
      let st := inputNodeIDs.foldl
        (fun st inputNodeID =>
          let scene := st.scene.modifyNode toolNodeID
            (fun toolNode =>
              toolNode.addNodeReferenceID BOUNDARY_CUT_INPUT_BORDER_REFERENCE inputNodeID)
          { st with scene := scene })
        st
      .ok (st.addParameterNodeRef TOOL_NODE_REFERENCE toolNodeID)

/-- `visit_Assign(node)` (lines 25-88).  Multi-target assignments and
non-name targets hit `logging.error`, which raises `NameError` (the visitor
module never imports `logging`); `_Planes` / `_Curves` / `_ClosedCurves`
declare input markers (the curve-type configuration on curve nodes is
host-side markup state); `_DistanceWeightingFunction` stores `node.value.s`
(raising `AttributeError` when the value is not a string literal); any other
name declares a parcel. -/
def visit_Assign (st : VisitorState) (targets : List PyExpr) (value : PyExpr) :
    Except (PyError × VisitorState) VisitorState :=
  if targets.length > 1 then .error (loggingNameError, st)
  else
    match targets with
    | [] => .error ((.typeError "Assign statement with no targets"), st)
    | target :: _ =>
      match target with
      | .name targetId =>
        if targetId = "_Planes" then do
          let (st, _) ← process_InputNodes st value "vtkMRMLMarkupsPlaneNode"
          pure st
        else if targetId = "_Curves" then do
          let (st, _) ← process_InputNodes st value "vtkMRMLMarkupsCurveNode"
          pure st
        else if targetId = "_ClosedCurves" then do
          let (st, _) ← process_InputNodes st value "vtkMRMLMarkupsClosedCurveNode"
          pure st
        else if targetId = "_DistanceWeightingFunction" then
          match value with
          | .strConst s => .ok { st with distanceWeightingFunction := some s }
          | _ => .error ((.attributeError "object has no attribute 's'"), st)
        else
          visitAssignParcel st targetId value
      | _ => .error (loggingNameError, st)

/-- Dispatch of one top-level statement of the module: `ast.Assign` goes to
`visit_Assign`; an `ast.Expr` statement has no handler, so `generic_visit`
visits its value expression and discards the result. -/
def visitStmt (st : VisitorState) : PyStmt → Except (PyError × VisitorState) VisitorState
  | .assign targets value _ => visit_Assign st targets value
  | .exprStmt value _ =>
    match visitExprValue st value with
    | .ok _ => .ok st
    | .error e => .error (e, st)

/-- `generic_visit` over the module body: statements in textual order,
stopping at the first uncaught exception. -/
def visitModule (st : VisitorState) : List PyStmt → Except (PyError × VisitorState) VisitorState
  | [] => .ok st
  | stmt :: rest =>
    match visitStmt st stmt with
    | .ok st => visitModule st rest
    | .error e => .error e

/-- Result of `parseParcellationString`: the state after the run (mutations
made before an exception persist — there is no rollback), the `success`
flag, the returned `errorMessage` (never assigned in the source, hence
always empty) and the exception shown via `errorDisplay`, if any. -/
structure ParseResult where
  state : VisitorState
  success : Bool
  errorMessage : String
  displayedError : Option PyError
deriving DecidableEq, Repr

/-- `parseParcellationString(parameterNode)` (lines 557-580) applied to an
already-parsed script (`ast.parse` of the query text is Python's parser):
visit the module; `success` stays `False` when any exception escapes the
visitor and is caught by the `except` clause. -/
def parseParcellationString (st : VisitorState) (script : List PyStmt) : ParseResult :=
  match visitModule st script with
  | .ok st => { state := st, success := true, errorMessage := "", displayedError := none }
  | .error (e, st) =>
    { state := st, success := false, errorMessage := "", displayedError := some e }

/-- `loadQuery()` (lines 968-985): ensure the `ParcellationQuery` text node
exists (file loading through the text storage node is host I/O; the script
stands for the parsed file content), clear the parameter node's
`InputMarkups` and `OutputModel` references — and only those — then
interpret the script. -/
def loadQuery (st : VisitorState) (script : List PyStmt) : ParseResult :=
  let st :=
    match st.parameterNodeReferences INPUT_QUERY_REFERENCE with
    | [] =>
      let (scene, queryNodeID) := st.scene.addNewNodeByClass "vtkMRMLTextNode" "ParcellationQuery"
      let refs := st.parameterNodeRefs ++ [(INPUT_QUERY_REFERENCE, queryNodeID)]
      { st with scene := scene, parameterNodeRefs := refs }
    | _ => st
  let refsA := st.parameterNodeRefs.filter (fun r => r.1 ≠ INPUT_MARKUPS_REFERENCE)
  let st := { st with parameterNodeRefs := refsA }
  let refsB := st.parameterNodeRefs.filter (fun r => r.1 ≠ OUTPUT_MODEL_REFERENCE)
  let st := { st with parameterNodeRefs := refsB }
  parseParcellationString st script

/-! ## Specification-side comparison definitions

These definitions follow the specification's wording; the theorems compare
the source-translated functions above against them. -/

/-- The centroid of a point list with equal weight per point (spec §4.3
step 1).  For the empty list the scale `1 / 0` is `0` in `ℚ`, so the value
is the zero vector. -/
def centroid (points : List Vec3) : Vec3 :=
  (1 / (points.length : ℚ)) • points.sum

/-- Modelled from the spec: the reference point is "constrained to lie along
the axis-aligned ray from the seed in the opposite direction implied by the
role" — the ray from the seed with the direction the code also assigns to
the role (e.g. `lateral_of` searches along the medial-pointing ray). -/
def onSearchRay (seedPoint : Vec3) (role : RelativeRole) (p : Vec3) : Prop :=
  ∃ t : ℚ, 0 ≤ t ∧ p = seedPoint + t • codeDirectionVector seedPoint role

/-- Perpendicular projection of a point onto the full axis-aligned line
through the seed for the role's axis (x for medial/lateral, y for
anterior/posterior, z for superior/inferior). -/
def axisLineProjection (seedPoint : Vec3) (role : RelativeRole) (p : Vec3) : Vec3 :=
  match role with
  | .lateral_of | .medial_of => ⟨p.x, seedPoint.y, seedPoint.z⟩
  | .anterior_of | .posterior_of => ⟨seedPoint.x, p.y, seedPoint.z⟩
  | .superior_of | .inferior_of => ⟨seedPoint.x, seedPoint.y, p.z⟩

/-- Squared perpendicular distance of a point to that axis-aligned line. -/
def perpDistSq (seedPoint : Vec3) (role : RelativeRole) (p : Vec3) : ℚ :=
  match role with
  | .lateral_of | .medial_of => (p.y - seedPoint.y) ^ 2 + (p.z - seedPoint.z) ^ 2
  | .anterior_of | .posterior_of => (p.x - seedPoint.x) ^ 2 + (p.z - seedPoint.z) ^ 2
  | .superior_of | .inferior_of => (p.x - seedPoint.x) ^ 2 + (p.y - seedPoint.y) ^ 2

/-! ## Concrete fixtures used by the example-level statements -/

/-- A 2-point curve marker at (0,0,0), (2,0,0). -/
def markerTwoPoints : RelativeMarker :=
  ⟨[⟨0, 0, 0⟩, ⟨2, 0, 0⟩], .curve [⟨0, 0, 0⟩, ⟨2, 0, 0⟩]⟩

/-- A 1-point curve marker at (0,0,10). -/
def markerOnePoint : RelativeMarker :=
  ⟨[⟨0, 0, 10⟩], .curve [⟨0, 0, 10⟩]⟩

/-- An empty seed with one constraint on the 2-point marker and one on the
1-point marker (the spec's two-level-centroid example). -/
def seedC4 : SeedNode where
  controlPoints := []
  manuallyPlacedAttribute := some "FALSE"
  relativeRefs := fun role =>
    match role with
    | .anterior_of => [markerTwoPoints]
    | .posterior_of => [markerOnePoint]
    | _ => []

/-- An empty seed with one constraint on a 1-point marker at (2,0,0) and one
constraint on a marker with no control points. -/
def seedC10 : SeedNode where
  controlPoints := []
  manuallyPlacedAttribute := some "FALSE"
  relativeRefs := fun role =>
    match role with
    | .anterior_of => [⟨[⟨2, 0, 0⟩], .curve [⟨2, 0, 0⟩]⟩]
    | .posterior_of => [⟨[], .curve []⟩]
    | _ => []

/-- A plane marker whose host nearest-point lookup returns (0,3,0) for every
query (a plane through (0,3,0) normal to y, queried on the y axis). -/
def planeMarkerAtY3 : RelativeMarker :=
  ⟨[⟨0, 3, 0⟩], .plane (fun _ => ⟨0, 3, 0⟩)⟩

/-- A seed at (0,1,0) in the auto-derived state. -/
def seedAtY1 : SeedNode where
  controlPoints := [⟨0, 1, 0⟩]
  manuallyPlacedAttribute := some "FALSE"
  relativeRefs := fun _ => []

/-- A manually-placed seed at (9,9,9) with an anterior constraint on the
plane marker. -/
def seedManual : SeedNode where
  controlPoints := [⟨9, 9, 9⟩]
  manuallyPlacedAttribute := some "TRUE"
  relativeRefs := fun role =>
    match role with
    | .anterior_of => [planeMarkerAtY3]
    | _ => []

/-- A boundary-cut job with one 1-point border marker and one border marker
with zero control points, and a non-empty prior output mesh. -/
def toolIncomplete : DynamicModelerToolNode where
  borderInputs := [some [⟨1, 2, 3⟩], some []]
  outputModel := some ⟨some [⟨4, 4, 4⟩]⟩
  seedNode := none

/-- The same job with both border markers non-empty. -/
def toolComplete : DynamicModelerToolNode where
  borderInputs := [some [⟨1, 2, 3⟩], some [⟨5, 5, 5⟩]]
  outputModel := some ⟨some [⟨4, 4, 4⟩]⟩
  seedNode := none

/-- The script `_Planes = [A]` / `P1 = A` (declares one plane marker and one
parcel named P1). -/
def scriptS1 : List PyStmt :=
  [.assign [.name "_Planes"] (.listLit [.name "A"]) 1,
   .assign [.name "P1"] (.name "A") 2]

/-- The script `_Planes = [B]` / `P2 = B` (parcel names disjoint from S1). -/
def scriptS2 : List PyStmt :=
  [.assign [.name "_Planes"] (.listLit [.name "B"]) 1,
   .assign [.name "P2"] (.name "B") 2]

/-- The weighting-ordering script:
`_DistanceWeightingFunction = "a"; _Curves = [X];
_DistanceWeightingFunction = "b"; _Curves = [Y]`. -/
def scriptWeighting : List PyStmt :=
  [.assign [.name "_DistanceWeightingFunction"] (.strConst "a") 1,
   .assign [.name "_Curves"] (.listLit [.name "X"]) 2,
   .assign [.name "_DistanceWeightingFunction"] (.strConst "b") 3,
   .assign [.name "_Curves"] (.listLit [.name "Y"]) 4]

/-- The script consisting of the single function-call statement `f(x)`. -/
def scriptCallOnly : List PyStmt :=
  [.exprStmt (.call (.name "f") [.name "x"]) 1]

/-- The empty scene. -/
def emptyScene : MRMLScene := ⟨[], 0⟩

/-- A plane markup node named "X". -/
def planeNodeX : MRMLNode := ⟨0, "vtkMRMLMarkupsPlaneNode", "X", [], []⟩

/-- A scene holding only the plane "X". -/
def sceneWithPlaneX : MRMLScene := ⟨[planeNodeX], 1⟩

/-! # Theorems -/

/-! ## Componentwise algebra on `Vec3` -/

theorem Vec3.eq_iff (a b : Vec3) : a = b ↔ a.x = b.x ∧ a.y = b.y ∧ a.z = b.z := by
  cases a
  cases b
  simp

@[simp] theorem Vec3.add_x (a b : Vec3) : (a + b).x = a.x + b.x := rfl

@[simp] theorem Vec3.add_y (a b : Vec3) : (a + b).y = a.y + b.y := rfl

@[simp] theorem Vec3.add_z (a b : Vec3) : (a + b).z = a.z + b.z := rfl

@[simp] theorem Vec3.sub_x (a b : Vec3) : (a - b).x = a.x - b.x := rfl

@[simp] theorem Vec3.sub_y (a b : Vec3) : (a - b).y = a.y - b.y := rfl

@[simp] theorem Vec3.sub_z (a b : Vec3) : (a - b).z = a.z - b.z := rfl

@[simp] theorem Vec3.smul_x (k : ℚ) (a : Vec3) : (k • a).x = k * a.x := rfl

@[simp] theorem Vec3.smul_y (k : ℚ) (a : Vec3) : (k • a).y = k * a.y := rfl

@[simp] theorem Vec3.smul_z (k : ℚ) (a : Vec3) : (k • a).z = k * a.z := rfl

@[simp] theorem Vec3.zero_x : (0 : Vec3).x = 0 := rfl

@[simp] theorem Vec3.zero_y : (0 : Vec3).y = 0 := rfl

@[simp] theorem Vec3.zero_z : (0 : Vec3).z = 0 := rfl

/-! ## Folds of `initializeSeedNode` -/

theorem foldl_smul_add (k : ℚ) :
    ∀ (l : List Vec3) (acc : Vec3),
      l.foldl (fun a p => k • p + a) acc = k • l.sum + acc := by
  intro l
  induction l with
  | nil => intro acc; simp
  | cons p t ih =>
    intro acc
    rw [List.foldl_cons, ih, List.sum_cons, smul_add]
    abel

theorem foldl_centroid_step (c : ℚ) :
    ∀ (rel : List (List Vec3)) (acc : Vec3),
      rel.foldl
        (fun seedPoint points =>
          if points.length = 0 then seedPoint
          else
            c • (points.foldl
              (fun a p => (1 / (points.length : ℚ)) • p + a) 0) + seedPoint)
        acc
      = c • (rel.map centroid).sum + acc := by
  intro rel
  induction rel with
  | nil => intro acc; simp
  | cons points t ih =>
    intro acc
    rw [List.foldl_cons]
    by_cases h : points.length = 0
    · have hnil : points = [] := List.length_eq_zero.mp h
      subst hnil
      have h0 : centroid [] = 0 := by simp [centroid]
      simp only [List.length_nil, if_pos rfl, ih, List.map_cons, List.sum_cons, h0]
      simp
    · rw [if_neg h, foldl_smul_add, add_zero, ih, List.map_cons, List.sum_cons, smul_add]
      have hc : c • ((1 / (points.length : ℚ)) • points.sum) = c • centroid points := by
        rw [centroid]
      rw [hc]
      abel

/-- `initializeSeedNode`'s arithmetic equals the two-level mean: the sum of
the per-node centroids (centroid of the empty node being the zero vector)
scaled by one over the total number of relative nodes. -/
theorem initializeSeedPoint_eq (relativeNodes : List (List Vec3))
    (h : relativeNodes ≠ []) :
    initializeSeedPoint relativeNodes
      = some ((1 / (relativeNodes.length : ℚ)) • (relativeNodes.map centroid).sum) := by
  have hl : ¬ relativeNodes.length = 0 := by
    simpa using fun hh => h (List.length_eq_zero.mp hh)
  rw [initializeSeedPoint]
  simp only [if_neg hl]
  rw [foldl_centroid_step]
  simp

/-- Summing centroids over only the non-empty point lists equals summing over
all of them, since the centroid of an empty list is the zero vector. -/
theorem sum_map_centroid_filter (rel : List (List Vec3)) :
    ((rel.filter (fun points => !points.isEmpty)).map centroid).sum
      = (rel.map centroid).sum := by
  induction rel with
  | nil => simp
  | cons points t ih =>
    cases points with
    | nil =>
      have h0 : centroid [] = 0 := by simp [centroid]
      simp [List.filter_cons, ih, h0]
    | cons a l =>
      simp [List.filter_cons, ih]

/-- C4: seed initialization computes a two-level equal-weight mean — the
per-constraint centroids of the referenced markers' control points are
averaged with equal weight per constraint; in particular a seed constrained
to a 2-point marker at (0,0,0),(2,0,0) and a 1-point marker at (0,0,10) is
initialized at (1/2, 0, 5), not at the flat 3-point mean (2/3, 0, 10/3). -/
theorem c4_two_level_centroid (relativeNodes : List (List Vec3))
    (h : relativeNodes ≠ []) (hpts : ∀ points ∈ relativeNodes, points ≠ []) :
    initializeSeedPoint relativeNodes
        = some ((1 / (relativeNodes.length : ℚ)) • (relativeNodes.map centroid).sum)
      ∧ centroid [⟨0, 0, 0⟩, ⟨2, 0, 0⟩] = (⟨1, 0, 0⟩ : Vec3)
      ∧ centroid [⟨0, 0, 10⟩] = (⟨0, 0, 10⟩ : Vec3)
      ∧ (initializeSeedNode seedC4).controlPoints = [⟨1/2, 0, 5⟩]
      ∧ (initializeSeedNode seedC4).controlPoints ≠ [⟨2/3, 0, 10/3⟩] := by
  have h1 := initializeSeedPoint_eq [[⟨0, 0, 0⟩, ⟨2, 0, 0⟩], [⟨0, 0, 10⟩]] (by simp)
  refine ⟨initializeSeedPoint_eq relativeNodes h, ?_, ?_, ?_, ?_⟩
  · rw [centroid]
    norm_num [Vec3.eq_iff]
  · rw [centroid]
    norm_num [Vec3.eq_iff]
  · simp [initializeSeedNode, seedC4, RELATIVE_SEED_ROLES, markerTwoPoints,
      markerOnePoint, h1, centroid, Vec3.eq_iff]
    norm_num
  · simp [initializeSeedNode, seedC4, RELATIVE_SEED_ROLES, markerTwoPoints,
      markerOnePoint, h1, centroid, Vec3.eq_iff]
    norm_num

/-- Witness for C4 at the spec's concrete instance. -/
theorem c4_two_level_centroid_witness :
    initializeSeedPoint [[⟨0, 0, 0⟩, ⟨2, 0, 0⟩], [⟨0, 0, 10⟩]]
      = some ((1 / (([[⟨0, 0, 0⟩, ⟨2, 0, 0⟩], [⟨0, 0, 10⟩]] :
          List (List Vec3)).length : ℚ)) •
        (([[⟨0, 0, 0⟩, ⟨2, 0, 0⟩], [⟨0, 0, 10⟩]] :
          List (List Vec3)).map centroid).sum) :=
  (c4_two_level_centroid [[⟨0, 0, 0⟩, ⟨2, 0, 0⟩], [⟨0, 0, 10⟩]]
    (by simp) (by simp)).1

/-- C10: a relative constraint whose marker has no control points contributes
nothing to the sum but still counts in the divisor — the initial seed point is
the sum of the centroids of the constraints-with-points divided by the total
number of constraints; concretely, one constraint on a 1-point marker at
(2,0,0) plus one empty constraint places the seed at (1,0,0), scaled toward
the origin, not at (2,0,0). -/
theorem c10_empty_marker_divisor (relativeNodes : List (List Vec3))
    (h : relativeNodes ≠ []) :
    initializeSeedPoint relativeNodes
        = some ((1 / (relativeNodes.length : ℚ)) •
            ((relativeNodes.filter (fun points => !points.isEmpty)).map centroid).sum)
      ∧ (initializeSeedNode seedC10).controlPoints = [⟨1, 0, 0⟩]
      ∧ (initializeSeedNode seedC10).controlPoints ≠ [⟨2, 0, 0⟩] := by
  have h1 := initializeSeedPoint_eq [[⟨2, 0, 0⟩], []] (by simp)
  refine ⟨?_, ?_, ?_⟩
  · rw [initializeSeedPoint_eq relativeNodes h, sum_map_centroid_filter]
  · simp [initializeSeedNode, seedC10, RELATIVE_SEED_ROLES, h1, centroid, Vec3.eq_iff]
  · simp [initializeSeedNode, seedC10, RELATIVE_SEED_ROLES, h1, centroid, Vec3.eq_iff]

/-- Witness for C10 at the concrete instance with an empty reference marker. -/
theorem c10_empty_marker_divisor_witness :
    initializeSeedPoint [[⟨2, 0, 0⟩], []]
      = some ((1 / (([[⟨2, 0, 0⟩], []] : List (List Vec3)).length : ℚ)) •
        ((([[⟨2, 0, 0⟩], []] : List (List Vec3)).filter
            (fun points => !points.isEmpty)).map centroid).sum) :=
  (c10_empty_marker_divisor [[⟨2, 0, 0⟩], []] (by simp)).1

/-! ## Closed forms of the directional correction -/

theorem correctSeedPoint_anterior (s c : Vec3) :
    correctSeedPoint s c .anterior_of
      = if (s - c).y < 0 then ⟨s.x, c.y - (s - c).y, s.z⟩ else s := by
  simp only [correctSeedPoint]
  simp [Vec3.setCoord, Vec3.coord]
  split_ifs <;> simp_all

theorem correctSeedPoint_posterior (s c : Vec3) :
    correctSeedPoint s c .posterior_of
      = if (s - c).y > 0 then ⟨s.x, c.y - (s - c).y, s.z⟩ else s := by
  simp only [correctSeedPoint]
  simp [Vec3.setCoord, Vec3.coord]
  split_ifs <;> simp_all

theorem correctSeedPoint_superior (s c : Vec3) :
    correctSeedPoint s c .superior_of
      = if (s - c).z < 0 then ⟨s.x, s.y, c.z - (s - c).z⟩ else s := by
  simp only [correctSeedPoint]
  simp [Vec3.setCoord, Vec3.coord]
  split_ifs <;> simp_all

theorem correctSeedPoint_inferior (s c : Vec3) :
    correctSeedPoint s c .inferior_of
      = if (s - c).z > 0 then ⟨s.x, s.y, c.z - (s - c).z⟩ else s := by
  simp only [correctSeedPoint]
  simp [Vec3.setCoord, Vec3.coord]
  split_ifs <;> simp_all

theorem correctSeedPoint_lateral (s c : Vec3) :
    correctSeedPoint s c .lateral_of
      = if |s.x| < |c.x| then ⟨c.x - (s - c).x, s.y, s.z⟩ else s := by
  simp only [correctSeedPoint]
  simp [Vec3.setCoord, Vec3.coord]
  split_ifs <;> simp_all

theorem correctSeedPoint_medial (s c : Vec3) :
    correctSeedPoint s c .medial_of
      = if |s.x| > |c.x| then ⟨c.x - (s - c).x, s.y, s.z⟩ else s := by
  simp only [correctSeedPoint]
  simp [Vec3.setCoord, Vec3.coord]
  split_ifs <;> simp_all

/-- C5: the directional correction mutates at most the single role-relevant
coordinate, and only when the constraint is violated; for `anterior_of` with
reference point (0,3,0), a seed at (0,5,0) is unchanged while a seed at
(0,1,0) gets only its y coordinate mirrored to 3 - (-2) = 5 (`new = ref -
diff`), also when the reference point is delivered by a plane marker inside
`updateRelativeSeedPosition`. -/
theorem c5_directional_correction (seedPoint closestPoint : Vec3) (role : RelativeRole) :
    ((role = .anterior_of ∨ role = .posterior_of) →
        (correctSeedPoint seedPoint closestPoint role).x = seedPoint.x
        ∧ (correctSeedPoint seedPoint closestPoint role).z = seedPoint.z)
    ∧ ((role = .medial_of ∨ role = .lateral_of) →
        (correctSeedPoint seedPoint closestPoint role).y = seedPoint.y
        ∧ (correctSeedPoint seedPoint closestPoint role).z = seedPoint.z)
    ∧ ((role = .superior_of ∨ role = .inferior_of) →
        (correctSeedPoint seedPoint closestPoint role).x = seedPoint.x
        ∧ (correctSeedPoint seedPoint closestPoint role).y = seedPoint.y)
    ∧ (0 ≤ seedPoint.y - closestPoint.y →
        correctSeedPoint seedPoint closestPoint .anterior_of = seedPoint)
    ∧ (seedPoint.y - closestPoint.y < 0 →
        correctSeedPoint seedPoint closestPoint .anterior_of
          = ⟨seedPoint.x, closestPoint.y - (seedPoint.y - closestPoint.y), seedPoint.z⟩)
    ∧ correctSeedPoint ⟨0, 5, 0⟩ ⟨0, 3, 0⟩ .anterior_of = (⟨0, 5, 0⟩ : Vec3)
    ∧ correctSeedPoint ⟨0, 1, 0⟩ ⟨0, 3, 0⟩ .anterior_of = (⟨0, 5, 0⟩ : Vec3)
    ∧ (updateRelativeSeedPosition seedAtY1 planeMarkerAtY3 .anterior_of).controlPoints
        = [⟨0, 5, 0⟩] := by
  refine ⟨?_, ?_, ?_, ?_, ?_, ?_, ?_, ?_⟩
  · rintro (rfl | rfl) <;>
      [rw [correctSeedPoint_anterior]; rw [correctSeedPoint_posterior]] <;>
      split_ifs <;> simp
  · rintro (rfl | rfl) <;>
      [rw [correctSeedPoint_medial]; rw [correctSeedPoint_lateral]] <;>
      split_ifs <;> simp
  · rintro (rfl | rfl) <;>
      [rw [correctSeedPoint_superior]; rw [correctSeedPoint_inferior]] <;>
      split_ifs <;> simp
  · intro h
    rw [correctSeedPoint_anterior, if_neg]
    simp only [Vec3.sub_y]
    exact not_lt.mpr h
  · intro h
    rw [correctSeedPoint_anterior, if_pos] <;> simp only [Vec3.sub_y] <;> exact h
  · rw [correctSeedPoint_anterior]
    norm_num
  · rw [correctSeedPoint_anterior]
    norm_num [Vec3.eq_iff]
  · simp [updateRelativeSeedPosition, seedAtY1, planeMarkerAtY3,
      correctSeedPoint_anterior, Vec3.eq_iff]
    norm_num

/-- Witness for C5: the violated and non-violated anterior instances, with
each hypothesis discharged at the concrete input. -/
theorem c5_directional_correction_witness :
    correctSeedPoint ⟨0, 5, 0⟩ ⟨0, 3, 0⟩ .anterior_of = (⟨0, 5, 0⟩ : Vec3)
    ∧ correctSeedPoint ⟨0, 1, 0⟩ ⟨0, 3, 0⟩ .anterior_of
        = ⟨(⟨0, 1, 0⟩ : Vec3).x, (⟨0, 3, 0⟩ : Vec3).y - ((⟨0, 1, 0⟩ : Vec3).y -
            (⟨0, 3, 0⟩ : Vec3).y), (⟨0, 1, 0⟩ : Vec3).z⟩ :=
  ⟨(c5_directional_correction ⟨0, 5, 0⟩ ⟨0, 3, 0⟩ .anterior_of).2.2.2.1 (by norm_num),
   (c5_directional_correction ⟨0, 1, 0⟩ ⟨0, 3, 0⟩ .anterior_of).2.2.2.2.1 (by norm_num)⟩

/-- C6: a seed whose manually-placed flag is "TRUE" is left entirely
unchanged by the relative-seed derivation; removing all of its control
points resets the flag to "FALSE", after which derivation runs again (the
concrete reset seed is re-derived to its constraint target). -/
theorem c6_manual_freeze (locator : Option (Vec3 → Vec3)) (seedNode : SeedNode) :
    (seedNode.manuallyPlacedAttribute = some "TRUE" →
      updateRelativeSeedNode locator seedNode = seedNode)
    ∧ (seedNode.controlPoints = [] →
      (onSeedRemoved seedNode).manuallyPlacedAttribute = some "FALSE")
    ∧ updateRelativeSeedNode none seedManual = seedManual
    ∧ (updateRelativeSeedNode none
        (onSeedRemoved { seedManual with controlPoints := [] })).controlPoints
      = [⟨0, 3, 0⟩] := by
  have h1 := initializeSeedPoint_eq [[⟨0, 3, 0⟩]] (by simp)
  refine ⟨?_, ?_, ?_, ?_⟩
  · intro h
    rw [updateRelativeSeedNode, if_pos h]
  · intro h
    rw [onSeedRemoved, if_neg]
    simp [h]
  · rw [updateRelativeSeedNode, if_pos]
    rfl
  · simp only [onSeedRemoved, seedManual, List.length_nil, ne_eq, not_true_eq_false,
      if_false]
    simp [updateRelativeSeedNode, initializeSeedNode, RELATIVE_SEED_ROLES,
      planeMarkerAtY3, updateRelativeSeedPosition, snapSeedsToSurface, h1, centroid,
      correctSeedPoint_anterior, Vec3.eq_iff]

/-- Witness for C6: the frozen manual seed and the reset transition at
concrete inputs. -/
theorem c6_manual_freeze_witness :
    updateRelativeSeedNode (some id) seedManual = seedManual
    ∧ (onSeedRemoved { seedManual with controlPoints := [] }).manuallyPlacedAttribute
      = some "FALSE" :=
  ⟨(c6_manual_freeze (some id) seedManual).1 rfl,
   (c6_manual_freeze (some id) { seedManual with controlPoints := [] }).2.1 rfl⟩

/-- C7: a boundary-cut job with a present border marker that has zero control
points does not invoke the external solver and clears the prior output mesh;
a job whose present border markers all have points invokes the solver. -/
theorem c7_incomplete_job_skip (locator : Option (Vec3 → Vec3))
    (toolNode : DynamicModelerToolNode) :
    ((∃ points, some points ∈ toolNode.borderInputs ∧ points = []) →
      (runDynamicModelerTool locator toolNode).1 ≠ .solverInvoked
      ∧ ∀ priorMesh, toolNode.outputModel = some ⟨some priorMesh⟩ →
          (runDynamicModelerTool locator toolNode).2.outputModel = some ⟨some []⟩)
    ∧ ((∀ points, some points ∈ toolNode.borderInputs → points ≠ []) →
      (runDynamicModelerTool locator toolNode).1 = .solverInvoked) := by
  constructor
  · rintro ⟨points, hmem, rfl⟩
    have hall : toolHasAllInputs
        { toolNode with seedNode := toolNode.seedNode.map (updateRelativeSeedNode locator) }
        = false := by
      rw [toolHasAllInputs]
      simp only [List.all_eq_false]
      exact ⟨some [], hmem, by simp⟩
    constructor
    · rw [runDynamicModelerTool]
      simp only [hall, Bool.false_eq_true, if_false]
      rcases htool : toolNode.outputModel with _ | ⟨_ | mesh⟩ <;> simp
    · intro priorMesh hout
      rw [runDynamicModelerTool]
      rw [if_neg (show ¬ _ from by simp [hall])]
      simp [hout]
  · intro h
    rw [runDynamicModelerTool]
    have hall : toolHasAllInputs
        { toolNode with seedNode := toolNode.seedNode.map (updateRelativeSeedNode locator) }
        = true := by
      rw [toolHasAllInputs]
      simp only [List.all_eq_true]
      intro inputNode hmem
      cases inputNode with
      | none => rfl
      | some points =>
        have := h points hmem
        simp [List.length_eq_zero, this]
    rw [if_pos hall]

/-- Witness for C7: the concrete incomplete job is not solved and its output
is cleared; the concrete complete job is solved. -/
theorem c7_incomplete_job_skip_witness :
    (runDynamicModelerTool none toolIncomplete).1 ≠ .solverInvoked
    ∧ (runDynamicModelerTool none toolIncomplete).2.outputModel = some ⟨some []⟩
    ∧ (runDynamicModelerTool none toolComplete).1 = .solverInvoked := by
  have h1 := (c7_incomplete_job_skip none toolIncomplete).1 ⟨[], by decide, rfl⟩
  have h2 := (c7_incomplete_job_skip none toolComplete).2 (by
    intro points hmem
    simp only [toolComplete, List.mem_cons, List.not_mem_nil, or_false,
      Option.some.injEq] at hmem
    rcases hmem with h | h <;> subst h <;> simp)
  exact ⟨h1.1, h1.2 [⟨4, 4, 4⟩] rfl, h2⟩

/-! ## The seed-line query of `getClosestPointOnCurveAlongLine` -/

theorem ltOptB_none (d : ℚ) : ltOptB d none = true := rfl

theorem ltOptB_some (d m : ℚ) : ltOptB d (some m) = true ↔ d < m := by
  simp [ltOptB]

theorem ltOptB_some_false (d m : ℚ) : ltOptB d (some m) = false ↔ m ≤ d := by
  simp [ltOptB, not_lt]

theorem distanceToLine_negY (s q : Vec3) :
    distanceToLine q s (s + (10000 : ℚ) • (⟨0, -1, 0⟩ : Vec3))
      = ((q.x - s.x) ^ 2 + (q.z - s.z) ^ 2, ⟨s.x, q.y, s.z⟩) := by
  rw [distanceToLine]
  rw [if_neg (by simp [Vec3.dot])]
  simp only [Vec3.dot, Prod.mk.injEq, Vec3.eq_iff, Vec3.add_x, Vec3.add_y, Vec3.add_z,
    Vec3.sub_x, Vec3.sub_y, Vec3.sub_z, Vec3.smul_x, Vec3.smul_y, Vec3.smul_z]
  refine ⟨by ring, ?_, ?_, ?_⟩ <;> field_simp <;> try ring

theorem distanceToLine_posY (s q : Vec3) :
    distanceToLine q s (s + (10000 : ℚ) • (⟨0, 1, 0⟩ : Vec3))
      = ((q.x - s.x) ^ 2 + (q.z - s.z) ^ 2, ⟨s.x, q.y, s.z⟩) := by
  rw [distanceToLine]
  rw [if_neg (by simp [Vec3.dot])]
  simp only [Vec3.dot, Prod.mk.injEq, Vec3.eq_iff, Vec3.add_x, Vec3.add_y, Vec3.add_z,
    Vec3.sub_x, Vec3.sub_y, Vec3.sub_z, Vec3.smul_x, Vec3.smul_y, Vec3.smul_z]
  refine ⟨by ring, ?_, ?_, ?_⟩ <;> field_simp <;> try ring

theorem distanceToLine_negZ (s q : Vec3) :
    distanceToLine q s (s + (10000 : ℚ) • (⟨0, 0, -1⟩ : Vec3))
      = ((q.x - s.x) ^ 2 + (q.y - s.y) ^ 2, ⟨s.x, s.y, q.z⟩) := by
  rw [distanceToLine]
  rw [if_neg (by simp [Vec3.dot])]
  simp only [Vec3.dot, Prod.mk.injEq, Vec3.eq_iff, Vec3.add_x, Vec3.add_y, Vec3.add_z,
    Vec3.sub_x, Vec3.sub_y, Vec3.sub_z, Vec3.smul_x, Vec3.smul_y, Vec3.smul_z]
  refine ⟨by ring, ?_, ?_, ?_⟩ <;> field_simp <;> try ring

theorem distanceToLine_posZ (s q : Vec3) :
    distanceToLine q s (s + (10000 : ℚ) • (⟨0, 0, 1⟩ : Vec3))
      = ((q.x - s.x) ^ 2 + (q.y - s.y) ^ 2, ⟨s.x, s.y, q.z⟩) := by
  rw [distanceToLine]
  rw [if_neg (by simp [Vec3.dot])]
  simp only [Vec3.dot, Prod.mk.injEq, Vec3.eq_iff, Vec3.add_x, Vec3.add_y, Vec3.add_z,
    Vec3.sub_x, Vec3.sub_y, Vec3.sub_z, Vec3.smul_x, Vec3.smul_y, Vec3.smul_z]
  refine ⟨by ring, ?_, ?_, ?_⟩ <;> field_simp <;> try ring

theorem distanceToLine_posX (s q : Vec3) :
    distanceToLine q s (s + (10000 : ℚ) • (⟨1, 0, 0⟩ : Vec3))
      = ((q.y - s.y) ^ 2 + (q.z - s.z) ^ 2, ⟨q.x, s.y, s.z⟩) := by
  rw [distanceToLine]
  rw [if_neg (by simp [Vec3.dot])]
  simp only [Vec3.dot, Prod.mk.injEq, Vec3.eq_iff, Vec3.add_x, Vec3.add_y, Vec3.add_z,
    Vec3.sub_x, Vec3.sub_y, Vec3.sub_z, Vec3.smul_x, Vec3.smul_y, Vec3.smul_z]
  refine ⟨by ring, ?_, ?_, ?_⟩ <;> field_simp <;> try ring

theorem distanceToLine_negX (s q : Vec3) :
    distanceToLine q s (s + (10000 : ℚ) • (⟨-1, 0, 0⟩ : Vec3))
      = ((q.y - s.y) ^ 2 + (q.z - s.z) ^ 2, ⟨q.x, s.y, s.z⟩) := by
  rw [distanceToLine]
  rw [if_neg (by simp [Vec3.dot])]
  simp only [Vec3.dot, Prod.mk.injEq, Vec3.eq_iff, Vec3.add_x, Vec3.add_y, Vec3.add_z,
    Vec3.sub_x, Vec3.sub_y, Vec3.sub_z, Vec3.smul_x, Vec3.smul_y, Vec3.smul_z]
  refine ⟨by ring, ?_, ?_, ?_⟩ <;> field_simp <;> try ring

/-- `vtkLine.DistanceToLine` against the seed line of a role computes the
squared perpendicular distance to the full axis-aligned line through the
seed, and the perpendicular projection of the query point onto that line —
with no restriction to the ray direction (the lateral/medial hemisphere flip
only changes the sign of the direction, not the line). -/
theorem distanceToLine_axis (seedPoint q : Vec3) (role : RelativeRole) :
    distanceToLine q seedPoint
        (seedPoint + (10000 : ℚ) • codeDirectionVector seedPoint role)
      = (perpDistSq seedPoint role q, axisLineProjection seedPoint role q) := by
  cases role with
  | anterior_of =>
    simp only [codeDirectionVector, perpDistSq, axisLineProjection]
    exact distanceToLine_negY seedPoint q
  | posterior_of =>
    simp only [codeDirectionVector, perpDistSq, axisLineProjection]
    exact distanceToLine_posY seedPoint q
  | superior_of =>
    simp only [codeDirectionVector, perpDistSq, axisLineProjection]
    exact distanceToLine_negZ seedPoint q
  | inferior_of =>
    simp only [codeDirectionVector, perpDistSq, axisLineProjection]
    exact distanceToLine_posZ seedPoint q
  | lateral_of =>
    simp only [codeDirectionVector, perpDistSq, axisLineProjection]
    split_ifs
    · exact distanceToLine_posX seedPoint q
    · exact distanceToLine_negX seedPoint q
  | medial_of =>
    simp only [codeDirectionVector, perpDistSq, axisLineProjection]
    split_ifs
    · exact distanceToLine_negX seedPoint q
    · exact distanceToLine_posX seedPoint q

theorem closestPointFold_cons (f : Vec3 → ℚ × Vec3) (a : Vec3) (t : List Vec3)
    (acc : Option ℚ × Vec3) :
    closestPointFold f (a :: t) acc
      = closestPointFold f t
          (if ltOptB (f a).1 acc.1 then (some (f a).1, (f a).2) else acc) := rfl

/-- Invariant of the minimum-tracking fold: either no curve point beats the
incoming accumulator and it is returned unchanged, or the result is the
distance/point pair of a curve point whose distance is minimal over the list
and no larger than the incoming minimum. -/
theorem closestPointFold_spec (f : Vec3 → ℚ × Vec3) :
    ∀ (l : List Vec3) (acc : Option ℚ × Vec3),
      (closestPointFold f l acc = acc ∧ ∀ q ∈ l, ltOptB (f q).1 acc.1 = false)
      ∨ (∃ p ∈ l, closestPointFold f l acc = (some (f p).1, (f p).2)
          ∧ (∀ q ∈ l, (f p).1 ≤ (f q).1)
          ∧ (∀ m, acc.1 = some m → (f p).1 ≤ m)) := by
  intro l
  induction l with
  | nil =>
    intro acc
    left
    exact ⟨rfl, by intro q hq; cases hq⟩
  | cons a t ih =>
    intro acc
    rw [closestPointFold_cons]
    by_cases hb : ltOptB (f a).1 acc.1 = true
    · rw [if_pos hb]
      have hstep : ∀ m, acc.1 = some m → (f a).1 ≤ m := by
        intro m hm
        rw [hm] at hb
        exact le_of_lt ((ltOptB_some _ _).mp hb)
      rcases ih (some (f a).1, (f a).2) with ⟨heq, hall⟩ | ⟨p, hp, heq, hmin, hacc⟩
      · right
        refine ⟨a, List.mem_cons_self a t, heq, ?_, hstep⟩
        intro q hq
        rcases List.mem_cons.mp hq with rfl | hq
        · exact le_refl _
        · exact (ltOptB_some_false _ _).mp (hall q hq)
      · right
        have hpa : (f p).1 ≤ (f a).1 := hacc (f a).1 rfl
        refine ⟨p, List.mem_cons_of_mem a hp, heq, ?_, ?_⟩
        · intro q hq
          rcases List.mem_cons.mp hq with rfl | hq
          · exact hpa
          · exact hmin q hq
        · intro m hm
          exact le_trans hpa (hstep m hm)
    · have hb' : ltOptB (f a).1 acc.1 = false := Bool.eq_false_iff.mpr hb
      rw [if_neg hb]
      obtain ⟨m, hm⟩ : ∃ m, acc.1 = some m := by
        cases hacc1 : acc.1 with
        | none => rw [hacc1, ltOptB_none] at hb'; cases hb'
        | some m => exact ⟨m, rfl⟩
      have hma : m ≤ (f a).1 := by
        rw [hm] at hb'
        exact (ltOptB_some_false _ _).mp hb'
      rcases ih acc with ⟨heq, hall⟩ | ⟨p, hp, heq, hmin, hacc⟩
      · left
        refine ⟨heq, ?_⟩
        intro q hq
        rcases List.mem_cons.mp hq with rfl | hq
        · exact hb'
        · exact hall q hq
      · right
        refine ⟨p, List.mem_cons_of_mem a hp, heq, ?_, hacc⟩
        intro q hq
        rcases List.mem_cons.mp hq with rfl | hq
        · exact le_trans (hacc m hm) hma
        · exact hmin q hq

/-- On a non-empty curve starting from the `VTK_DOUBLE_MAX` sentinel, the
fold returns the pair of a distance-minimizing curve point. -/
theorem closestPointFold_argmin (f : Vec3 → ℚ × Vec3) (l : List Vec3) (hl : l ≠ [])
    (c0 : Vec3) :
    ∃ p ∈ l, closestPointFold f l (none, c0) = (some (f p).1, (f p).2)
      ∧ ∀ q ∈ l, (f p).1 ≤ (f q).1 := by
  rcases closestPointFold_spec f l (none, c0) with ⟨heq, hall⟩ | ⟨p, hp, heq, hmin, _⟩
  · obtain ⟨a, ha⟩ := List.exists_mem_of_ne_nil l hl
    have := hall a ha
    rw [ltOptB_none] at this
    cases this
  · exact ⟨p, hp, heq, hmin⟩

/-- The curve query returns the perpendicular projection onto the axis line
of a curve sample point minimizing the perpendicular distance. -/
theorem getClosestPointOnCurveAlongLine_spec (seedPoint : Vec3)
    (curvePoints : List Vec3) (role : RelativeRole) (c0 : Vec3)
    (h : curvePoints ≠ []) :
    ∃ p ∈ curvePoints,
      getClosestPointOnCurveAlongLine seedPoint curvePoints role c0
        = axisLineProjection seedPoint role p
      ∧ ∀ q ∈ curvePoints, perpDistSq seedPoint role p ≤ perpDistSq seedPoint role q := by
  obtain ⟨p, hp, heq, hmin⟩ :=
    closestPointFold_argmin
      (fun q => distanceToLine q seedPoint
        (seedPoint + (10000 : ℚ) • codeDirectionVector seedPoint role))
      curvePoints h c0
  refine ⟨p, hp, ?_, ?_⟩
  · rw [getClosestPointOnCurveAlongLine]
    rw [heq]
    rw [distanceToLine_axis]
  · intro q hq
    have := hmin q hq
    rw [distanceToLine_axis, distanceToLine_axis] at this
    exact this

theorem self_mem_classAncestors (c : String) : (classAncestors c).contains c = true := by
  rw [classAncestors]
  split_ifs with h1 h2 h3 h4 h5 h6 <;> first
    | (subst h1; decide)
    | (subst h2; decide)
    | (subst h3; decide)
    | (subst h4; decide)
    | (subst h5; decide)
    | (subst h6; decide)
    | simp [List.contains_cons]

/-- C1 counterexample: creating marker "X" as a plane and then requesting "X"
as a curve does not return the existing marker — the lookup is keyed by
class (via `IsA`) as well as name, so a new node is created, and the scene's
unique-name generation renames it to "X_1" (a further curve request for "X"
creates yet another node, "X_2"): ids 0, 1, 2 are pairwise distinct
identities. -/
theorem c1_marker_lookup_counterexample :
    (getOrCreateInputNode emptyScene "vtkMRMLMarkupsPlaneNode" "X").2 = 0
    ∧ (getOrCreateInputNode
        (getOrCreateInputNode emptyScene "vtkMRMLMarkupsPlaneNode" "X").1
        "vtkMRMLMarkupsCurveNode" "X").2 = 1
    ∧ (getOrCreateInputNode
        (getOrCreateInputNode emptyScene "vtkMRMLMarkupsPlaneNode" "X").1
        "vtkMRMLMarkupsCurveNode" "X").2
      ≠ (getOrCreateInputNode emptyScene "vtkMRMLMarkupsPlaneNode" "X").2
    ∧ ((getOrCreateInputNode
        (getOrCreateInputNode emptyScene "vtkMRMLMarkupsPlaneNode" "X").1
        "vtkMRMLMarkupsCurveNode" "X").1.getNodeByID 1).map MRMLNode.name
      = some "X_1"
    ∧ (getOrCreateInputNode
        (getOrCreateInputNode
          (getOrCreateInputNode emptyScene "vtkMRMLMarkupsPlaneNode" "X").1
          "vtkMRMLMarkupsCurveNode" "X").1
        "vtkMRMLMarkupsCurveNode" "X").2 = 2 := by
  decide

/-- A name carried by no node of the scene is found by no class-filtered
lookup either. -/
theorem getFirstNode_of_nameUnused (scene : MRMLScene) (name className : String)
    (h : scene.isNodeNameUsed name = false) :
    scene.getFirstNode name className = none := by
  rw [MRMLScene.isNodeNameUsed] at h
  have hall : ∀ x ∈ scene.nodes, ¬ (decide (x.name = name) = true) := by
    simpa [List.any_eq_false] using h
  rw [MRMLScene.getFirstNode, List.find?_eq_none]
  intro x hx
  have hfalse : decide (x.name = name) = false := by
    cases hdec : decide (x.name = name) with
    | false => rfl
    | true => exact absurd hdec (hall x hx)
  simp [hfalse]

/-- When the base name is entirely unused, `AddNewNodeByClass` keeps it
verbatim (unique-name generation returns the base name) and the class/name
lookup right afterwards finds the created node. -/
theorem getFirstNode_addNew (scene : MRMLScene) (className name : String)
    (h : scene.isNodeNameUsed name = false) :
    (scene.addNewNodeByClass className name).1.getFirstNode name className
      = some ⟨scene.nextID, className, name, [], []⟩ := by
  have hgen : scene.generateUniqueName name = name := by
    rw [MRMLScene.generateUniqueName, if_neg]
    simp [h]
  have hnone := getFirstNode_of_nameUnused scene name className h
  rw [MRMLScene.getFirstNode] at hnone
  have hpred : ((⟨scene.nextID, className, name, [], []⟩ : MRMLNode).isA className
      && decide ((⟨scene.nextID, className, name, [], []⟩ : MRMLNode).name = name))
      = true := by
    rw [MRMLNode.isA]
    show ((classAncestors className).contains className && decide (name = name)) = true
    rw [self_mem_classAncestors]
    simp
  simp only [MRMLScene.addNewNodeByClass, hgen, MRMLScene.getFirstNode]
  rw [List.find?_append, hnone, Option.none_or]
  exact List.find?_cons_of_pos _ hpred

/-- C1 amended: the requested type is part of the lookup key, and the scene
renames on name collision.  A marker whose class matches the requested class
(via `IsA`) and carries the name is returned as-is — same identity,
unchanged scene — so repeating `getOrCreate(name, T)` is idempotent whenever
the first call found the marker, or created it under a previously unused
name.  When the name is held only by class-incompatible nodes, the lookup
misses and each call creates a fresh marker, renamed by unique-name
generation to `name_1`, `name_2`, …, so the original same-identity claim
fails. -/
theorem c1_marker_lookup_amended (scene : MRMLScene) (className name : String) :
    (∀ node, scene.getFirstNode name className = some node →
      getOrCreateInputNode scene className name = (scene, node.nodeID))
    ∧ (scene.isNodeNameUsed name = false →
      getOrCreateInputNode (getOrCreateInputNode scene className name).1 className name
        = getOrCreateInputNode scene className name) := by
  constructor
  · intro node h
    rw [getOrCreateInputNode, h]
  · intro h
    have hnone := getFirstNode_of_nameUnused scene name className h
    have hnew := getFirstNode_addNew scene className name h
    simp only [getOrCreateInputNode, hnone]
    rw [hnew]
    simp [MRMLScene.addNewNodeByClass]

/-- Witness for C1 amended: the cache hit on the plane "X" returns the
existing node and scene, and get-or-create of a curve "X" in an empty scene
is idempotent. -/
theorem c1_marker_lookup_amended_witness :
    getOrCreateInputNode sceneWithPlaneX "vtkMRMLMarkupsPlaneNode" "X"
        = (sceneWithPlaneX, planeNodeX.nodeID)
    ∧ getOrCreateInputNode
        (getOrCreateInputNode emptyScene "vtkMRMLMarkupsCurveNode" "X").1
        "vtkMRMLMarkupsCurveNode" "X"
      = getOrCreateInputNode emptyScene "vtkMRMLMarkupsCurveNode" "X" :=
  ⟨(c1_marker_lookup_amended sceneWithPlaneX "vtkMRMLMarkupsPlaneNode" "X").1 planeNodeX
      (by decide),
   (c1_marker_lookup_amended emptyScene "vtkMRMLMarkupsCurveNode" "X").2 (by decide)⟩

/-! ## Query-interpreter runs (C2, C3, C8) -/

theorem visitStmt_call (st : VisitorState) (func : PyExpr) (args : List PyExpr)
    (lineno : Nat) :
    visitStmt st (.exprStmt (.call func args) lineno) = .ok st := rfl

theorem visitModule_call_skip (pre : List PyStmt) :
    ∀ (st : VisitorState) (post : List PyStmt) (func : PyExpr) (args : List PyExpr)
      (lineno : Nat),
      visitModule st (pre ++ .exprStmt (.call func args) lineno :: post)
        = visitModule st (pre ++ post) := by
  induction pre with
  | nil =>
    intro st post func args lineno
    rw [List.nil_append, List.nil_append]
    rw [visitModule, visitStmt_call]
  | cons s rest ih =>
    intro st post func args lineno
    rw [List.cons_append, List.cons_append, visitModule, visitModule]
    cases h : visitStmt st s with
    | ok st' => exact ih st' post func args lineno
    | error e => rfl

/-- C2 counterexample: the script consisting of the single function-call
statement `f(x)` does not fail the run — `visit_Call` is a no-op `pass`, so
the success flag is `True`, no error is displayed (in particular no line
number is reported), and the state is untouched.  The claim said the run's
success flag is false and the statement's line number is reported. -/
theorem c2_call_statement_counterexample :
    (parseParcellationString initialVisitorState scriptCallOnly).success = true
    ∧ (parseParcellationString initialVisitorState scriptCallOnly).displayedError = none
    ∧ (parseParcellationString initialVisitorState scriptCallOnly).state
        = initialVisitorState := by
  decide

/-- C2 amended: a function-call statement is silently ignored — interpreting
any script containing one behaves exactly as if the statement were absent
(same resulting state, success flag and reported error), so the run does not
fail and the interpreter does not crash; a different unsupported form such as
a unary-operator statement does fail the run, but the surfaced error is the
visitor's own `NameError` (the `logging` module is never imported), which
does not identify the statement's line number. -/
theorem c2_call_statement_amended (st : VisitorState) (pre post post2 : List PyStmt)
    (func operand : PyExpr) (args : List PyExpr) (lineno lineno2 : Nat) :
    parseParcellationString st (pre ++ .exprStmt (.call func args) lineno :: post)
        = parseParcellationString st (pre ++ post)
    ∧ (parseParcellationString st (.exprStmt (.unaryOp operand) lineno2 :: post2)).success
        = false
    ∧ (parseParcellationString st
        (.exprStmt (.unaryOp operand) lineno2 :: post2)).displayedError
      = some loggingNameError := by
  refine ⟨?_, rfl, rfl⟩
  rw [parseParcellationString, parseParcellationString, visitModule_call_skip]

/-- C3: executing script S1 (`_Planes = [A]; P1 = A`) and then script S2
(`_Planes = [B]; P2 = B`) via `loadQuery` leaves S1's boundary-cut tool
reference recorded: `loadQuery` clears only the `InputMarkups` and
`OutputModel` parameter-node references, never `ToolNode`, so the parameter
node still references S1's `P1_BoundaryCut` job (node 4) alongside S2's
(node 8) — while input-marker and output-model references are indeed
replaced by S2's. -/
theorem c3_tool_references_persist :
    (loadQuery initialVisitorState scriptS1).success = true
    ∧ (loadQuery (loadQuery initialVisitorState scriptS1).state scriptS2).success = true
    ∧ (loadQuery (loadQuery initialVisitorState scriptS1).state
        scriptS2).state.parameterNodeReferences TOOL_NODE_REFERENCE = [4, 8]
    ∧ ((loadQuery (loadQuery initialVisitorState scriptS1).state
        scriptS2).state.scene.getNodeByID 4).map MRMLNode.name = some "P1_BoundaryCut"
    ∧ (loadQuery (loadQuery initialVisitorState scriptS1).state
        scriptS2).state.parameterNodeReferences INPUT_MARKUPS_REFERENCE = [5]
    ∧ (loadQuery (loadQuery initialVisitorState scriptS1).state
        scriptS2).state.parameterNodeReferences OUTPUT_MODEL_REFERENCE = [6] := by
  decide

/-- C8: in the script `_DistanceWeightingFunction = "a"; _Curves = [X];
_DistanceWeightingFunction = "b"; _Curves = [Y]`, curve X receives
distance-weighting attribute "a" and curve Y receives "b" — each curve
declaration sees the most recent preceding weighting assignment. -/
theorem c8_weighting_function_ordering :
    (parseParcellationString initialVisitorState scriptWeighting).success = true
    ∧ ((parseParcellationString initialVisitorState
          scriptWeighting).state.scene.getNode "X").map
        (fun node => node.getAttribute "DistanceWeightingFunction")
      = some (some "a")
    ∧ ((parseParcellationString initialVisitorState
          scriptWeighting).state.scene.getNode "Y").map
        (fun node => node.getAttribute "DistanceWeightingFunction")
      = some (some "b") := by
  decide

end NeuroSegParc

